import Mathlib

/-
Verification of the NutritionAnalyzer dashboard (src/app.py) against its
natural-language specification.

The program is a Dash application over a pandas DataFrame.  We shallowly
embed the data-preparation pipeline (`load_and_clean_data`) and the query
callbacks (`display_item_info`, `update_compare_output`,
`update_top_n_output`, `update_restaurant_averages_output`,
`update_category_comparison_output`, `update_statistical_summary_output`)
as pure Lean functions over explicit row lists.  Modelling conventions:

* A DataFrame is a `List` of row records; the pandas row index is made
  explicit with `List.enum` where an operation's result depends on it.
* A missing / NaN cell is `Option.none`; pandas treats NaN as equal to NaN
  inside `drop_duplicates`, which matches `Option` equality.
* A raw CSV cell of a nutrition column is a `RawCell`: either a numeric
  value, a non-numeric text (represented by an opaque tag, since only the
  fact that `pd.to_numeric(errors='coerce')` maps it to NaN matters, plus
  its identity for duplicate detection), or missing.
* `df.sort_values(by=c, ascending=b)` is modelled as a deterministic
  sort-by-key (an insertion sort).  The source uses the default
  `kind='quicksort'`, which pandas does not document as stable: the key
  ordering is guaranteed but the permutation of tied rows is
  implementation-defined, so only tie-order-insensitive properties
  (membership, permutation of the key-filtered rows, pairwise key
  ordering, lengths) are proved about the ranking.
* Rendering (plotly figures, HTML) is out of scope per the spec; callbacks
  are modelled down to the data they hand to the rendering surface.
* A Dash callback whose `if` guard fails returns Python `None`; we model
  such results with `Option`, and a Python exception (e.g. `IndexError`
  from `.iloc[0]` on an empty frame) with `Except`.
-/

namespace NutritionApp

/-- A raw CSV cell of a nutrition column, before `pd.to_numeric`:
`num q` is a cell already parsed as the number `q`; `text t` is a cell whose
content fails numeric parsing (the tag `t` stands for the distinct raw text,
which matters only for duplicate detection); `missing` is an empty/NaN cell. -/
inductive RawCell where
  | num (q : ℚ)
  | text (t : ℕ)
  | missing
deriving DecidableEq, Repr

/-- One row of the raw CSV after the 16 unusable columns have been dropped:
exactly the columns that `load_and_clean_data` retains, with raw cell values.
The 16 dropped columns (`matched_2021`, ..., `protein_text`) are not
represented: they are removed before any step that reads values, and their
presence in the file is treated separately at the schema level
(`load_schema`).  Nutrition field names are the source's column names with
the unit suffixes dropped (`calories` for `calories_(kCal)`, etc.). -/
structure RawRow where
  item_name : String
  restaurant : String
  food_category : String
  item_description : Option String
  serving_size : Option ℚ
  serving_size_unit : Option String
  calories : RawCell
  total_fat : RawCell
  saturated_fat : RawCell
  trans_fat : RawCell
  cholesterol : RawCell
  sodium : RawCell
  carbohydrates : RawCell
  dietary_fiber : RawCell
  sugar : RawCell
  protein : RawCell
deriving DecidableEq, Repr

/-- One row of the loaded table: nutrition columns coerced to numeric
(`none` = unknown), plus the three derived macronutrient-calorie fields. -/
structure Row where
  item_name : String
  restaurant : String
  food_category : String
  item_description : Option String
  serving_size : Option ℚ
  serving_size_unit : Option String
  calories : Option ℚ
  total_fat : Option ℚ
  saturated_fat : Option ℚ
  trans_fat : Option ℚ
  cholesterol : Option ℚ
  sodium : Option ℚ
  carbohydrates : Option ℚ
  dietary_fiber : Option ℚ
  sugar : Option ℚ
  protein : Option ℚ
  carb_calories : Option ℚ
  fat_calories : Option ℚ
  protein_calories : Option ℚ
deriving DecidableEq, Repr

/-- The ten nutrition columns of `nutrition_columns` in src/app.py. -/
inductive Nutrient where
  | calories | total_fat | saturated_fat | trans_fat | cholesterol
  | sodium | carbohydrates | dietary_fiber | sugar | protein
deriving DecidableEq, Repr

/-- Cell access `row[nutrient]` on the loaded table. -/
def getNutrient (r : Row) : Nutrient → Option ℚ
  | .calories => r.calories
  | .total_fat => r.total_fat
  | .saturated_fat => r.saturated_fat
  | .trans_fat => r.trans_fat
  | .cholesterol => r.cholesterol
  | .sodium => r.sodium
  | .carbohydrates => r.carbohydrates
  | .dietary_fiber => r.dietary_fiber
  | .sugar => r.sugar
  | .protein => r.protein

/-- The two group-by fields offered by the dashboard's dropdowns. -/
inductive GroupField where
  | restaurant
  | food_category
deriving DecidableEq, Repr

/-- Cell access `row[groupField]`. -/
def groupKey (g : GroupField) (r : Row) : String :=
  match g with
  | .restaurant => r.restaurant
  | .food_category => r.food_category

/-- `pd.to_numeric(errors='coerce')` on one raw cell: numbers pass through,
parse failures and missing cells become NaN (`none`). -/
def coerceCell : RawCell → Option ℚ
  | .num q => some q
  | .text _ => none
  | .missing => none

/-- The `fillna('Unit')` step on `serving_size_unit`. -/
def fillUnit (r : RawRow) : RawRow :=
  { r with serving_size_unit := some (r.serving_size_unit.getD "Unit") }

/-- Numeric coercion of the ten nutrition columns plus computation of the
three derived fields (`carb_calories = carbohydrates * 4`,
`fat_calories = total_fat * 9`, `protein_calories = protein * 4`);
multiplication of NaN by a constant is NaN, i.e. `Option.map`. -/
def toRow (r : RawRow) : Row :=
  { item_name := r.item_name
    restaurant := r.restaurant
    food_category := r.food_category
    item_description := r.item_description
    serving_size := r.serving_size
    serving_size_unit := r.serving_size_unit
    calories := coerceCell r.calories
    total_fat := coerceCell r.total_fat
    saturated_fat := coerceCell r.saturated_fat
    trans_fat := coerceCell r.trans_fat
    cholesterol := coerceCell r.cholesterol
    sodium := coerceCell r.sodium
    carbohydrates := coerceCell r.carbohydrates
    dietary_fiber := coerceCell r.dietary_fiber
    sugar := coerceCell r.sugar
    protein := coerceCell r.protein
    carb_calories := (coerceCell r.carbohydrates).map (· * 4)
    fat_calories := (coerceCell r.total_fat).map (· * 9)
    protein_calories := (coerceCell r.protein).map (· * 4) }

/-- Helper for `dedupFirst`: drop elements already seen. -/
def dedupFirstAux [DecidableEq α] (seen : List α) : List α → List α
  | [] => []
  | a :: l =>
    if a ∈ seen then dedupFirstAux seen l
    else a :: dedupFirstAux (a :: seen) l

/-- `df.drop_duplicates()`: keep the first occurrence of each row value,
drop later exact duplicates. -/
def dedupFirst [DecidableEq α] (l : List α) : List α :=
  dedupFirstAux [] l

/-- The intermediate table right after `drop_duplicates()` in
`load_and_clean_data`: rows with NaN `serving_size` dropped, unusable
columns dropped (not represented), `serving_size_unit` filled, exact
duplicates removed.  Numeric coercion has NOT yet happened. -/
def dedupedRaw (raw : List RawRow) : List RawRow :=
  dedupFirst ((raw.filter (fun r => r.serving_size.isSome)).map fillUnit)

/-- `load_and_clean_data` of src/app.py, at the row level (the schema-level
behaviour on column names is `load_schema` below): drop rows with NaN
`serving_size`, drop the unusable columns, fill `serving_size_unit`,
drop duplicate rows, coerce the ten nutrition columns to numeric, add the
three derived calorie fields. -/
def load_and_clean_data (raw : List RawRow) : List Row :=
  (dedupedRaw raw).map toRow

/-- The fixed `columns_to_drop` list of `load_and_clean_data`. -/
def columns_to_drop : List String :=
  ["matched_2021", "new_item_2022", "serving_size_text",
   "serving_size_household", "potassium", "notes", "calories_text",
   "total_fat_text", "saturated_fat_text", "trans_fat_text",
   "cholesterol_text", "sodium_text", "carbohydrates_text",
   "dietary_fiber_text", "sugar_text", "protein_text"]

/-- The `nutrition_columns` list of `load_and_clean_data` (source spelling). -/
def nutritionColumnNames : List String :=
  ["calories_(kCal)", "total_fat_(g)", "saturated_fat_(g)", "trans_fat_(g)",
   "cholesterol_(mg/dL)", "sodium_(mg)", "carbohydrates_(g)",
   "dietary_fiber_(g)", "sugar_(g)", "protein_(g)"]

/-- `load_and_clean_data` at the schema level: which column-name sets make it
raise.  In order: `df.dropna(subset=['serving_size'])` raises `KeyError` if
`serving_size` is absent; `df.drop(columns=columns_to_drop)` (default
`errors='raise'`) raises `KeyError` if ANY listed column is absent;
`df['serving_size_unit']` raises if that column is absent; selecting
`df[nutrition_columns]` raises if any nutrition column is absent.  On
success the retained columns are the input minus the drop list, plus the
three derived columns. -/
def load_schema (cols : List String) : Except String (List String) :=
  if "serving_size" ∉ cols then .error "KeyError: serving_size"
  else if ¬ columns_to_drop.all (fun c => c ∈ cols) then
    .error "KeyError: drop"
  else
    let kept := cols.filter (fun c => c ∉ columns_to_drop)
    if "serving_size_unit" ∉ kept then .error "KeyError: serving_size_unit"
    else if ¬ nutritionColumnNames.all (fun c => c ∈ kept) then
      .error "KeyError: nutrition"
    else .ok (kept ++ ["carb_calories", "fat_calories", "protein_calories"])

theorem mem_of_mem_dedupFirstAux [DecidableEq α] (l : List α) (seen : List α)
    (x : α) (h : x ∈ dedupFirstAux seen l) : x ∈ l := by
  induction l generalizing seen with
  | nil => exact absurd h (List.not_mem_nil x)
  | cons a t ih =>
    rw [dedupFirstAux] at h
    by_cases ha : a ∈ seen
    · rw [if_pos ha] at h
      exact List.mem_cons_of_mem a (ih seen h)
    · rw [if_neg ha] at h
      rcases List.mem_cons.1 h with h1 | h2
      · exact h1 ▸ List.mem_cons_self a t
      · exact List.mem_cons_of_mem a (ih (a :: seen) h2)

theorem mem_of_mem_dedupFirst [DecidableEq α] (l : List α) (x : α)
    (h : x ∈ dedupFirst l) : x ∈ l :=
  mem_of_mem_dedupFirstAux l [] x h

theorem nodup_dedupFirstAux [DecidableEq α] (l : List α) (seen : List α) :
    (dedupFirstAux seen l).Nodup ∧
      ∀ x ∈ dedupFirstAux seen l, x ∉ seen := by
  induction l generalizing seen with
  | nil => exact ⟨List.nodup_nil, by simp [dedupFirstAux]⟩
  | cons a t ih =>
    rw [dedupFirstAux]
    by_cases ha : a ∈ seen
    · rw [if_pos ha]
      exact ih seen
    · rw [if_neg ha]
      obtain ⟨hnd, hnotin⟩ := ih (a :: seen)
      refine ⟨List.nodup_cons.2 ⟨fun hmem => ?_, hnd⟩, fun x hx => ?_⟩
      · exact hnotin a hmem (List.mem_cons_self a seen)
      · rcases List.mem_cons.1 hx with rfl | hx'
        · exact ha
        · exact fun hxs => hnotin x hx' (List.mem_cons_of_mem a hxs)

theorem nodup_dedupFirst [DecidableEq α] (l : List α) :
    (dedupFirst l).Nodup :=
  (nodup_dedupFirstAux l []).1

/-! ### Sorting, modelling `df.sort_values`

`df.sort_values(by=c, ascending=b)` orders the rows by the key column; with
the source's default `kind='quicksort'` the relative order of rows with
equal keys is implementation-defined (pandas documents stability only for
its stable kinds).  We model it as an insertion sort parameterized by a
boolean comparator — one correct sort-by-key — and prove about its results
only properties that hold for every correct sort-by-key, i.e. properties
insensitive to the order of tied rows. -/

/-- Insert `x` before the first element `y` of `l` with `le x y`. -/
def ins (le : α → α → Bool) (x : α) : List α → List α
  | [] => [x]
  | y :: ys => if le x y then x :: y :: ys else y :: ins le x ys

/-- Insertion sort with comparator `le`. -/
def isort (le : α → α → Bool) : List α → List α
  | [] => []
  | x :: xs => ins le x (isort le xs)

theorem ins_perm (le : α → α → Bool) (x : α) (l : List α) :
    List.Perm (ins le x l) (x :: l) := by
  induction l with
  | nil => exact List.Perm.refl _
  | cons y ys ih =>
    rw [ins]
    by_cases h : le x y = true
    · rw [if_pos h]
    · rw [if_neg h]
      exact (ih.cons y).trans (List.Perm.swap x y ys)

theorem isort_perm (le : α → α → Bool) (l : List α) :
    List.Perm (isort le l) l := by
  induction l with
  | nil => exact List.Perm.refl _
  | cons x xs ih =>
    rw [isort]
    exact (ins_perm le x (isort le xs)).trans (ih.cons x)

theorem pairwise_ins (le : α → α → Bool)
    (total : ∀ a b, le a b = true ∨ le b a = true)
    (htrans : ∀ a b c, le a b = true → le b c = true → le a c = true)
    (x : α) (l : List α) (hl : l.Pairwise (fun a b => le a b = true)) :
    (ins le x l).Pairwise (fun a b => le a b = true) := by
  induction l with
  | nil => simp [ins]
  | cons y ys ih =>
    rw [ins]
    by_cases h : le x y = true
    · rw [if_pos h]
      refine List.pairwise_cons.2 ⟨?_, hl⟩
      intro z hz
      rcases List.mem_cons.1 hz with rfl | hz'
      · exact h
      · exact htrans x y z h ((List.pairwise_cons.1 hl).1 z hz')
    · rw [if_neg h]
      have hyx : le y x = true := (total x y).resolve_left h
      refine List.pairwise_cons.2 ⟨?_, ih (List.pairwise_cons.1 hl).2⟩
      intro z hz
      rcases List.mem_cons.1 ((ins_perm le x ys).mem_iff.1 hz) with rfl | hz'
      · exact hyx
      · exact (List.pairwise_cons.1 hl).1 z hz'

theorem pairwise_isort (le : α → α → Bool)
    (total : ∀ a b, le a b = true ∨ le b a = true)
    (htrans : ∀ a b c, le a b = true → le b c = true → le a c = true)
    (l : List α) :
    (isort le l).Pairwise (fun a b => le a b = true) := by
  induction l with
  | nil => simp [isort]
  | cons x xs ih =>
    rw [isort]
    exact pairwise_ins le total htrans x _ ih

/-- The comparator of `sort_values(by=key, ascending=asc)`: compare by key
value only (how the code sorts). -/
def leVal (key : α → ℚ) (asc : Bool) (p q : α) : Bool :=
  if asc then decide (key p ≤ key q) else decide (key q ≤ key p)

/-! ### The Top N Foods callback (`update_top_n_output`) -/

/-- The two values of the `top-n-order` radio control (`'asc'` / `'desc'`). -/
inductive SortOrder where
  | asc
  | desc
deriving DecidableEq, Repr

/-- The source computes `ascending=(order == 'asc')`. -/
def SortOrder.isAsc : SortOrder → Bool
  | .asc => true
  | .desc => false

/-- Sort key of a row for nutrient `f`; the default `0` is only ever read on
rows already filtered out by `dropna`. -/
def nKey (f : Nutrient) (r : Row) : ℚ := (getNutrient r f).getD 0

/-- The rows surviving `dropna(subset=[nutrient])`, with their original row
index (the pandas index made explicit). -/
def knownRows (t : List Row) (f : Nutrient) : List (ℕ × Row) :=
  (t.enum).filter (fun p => (getNutrient p.2 f).isSome)

/-- `update_top_n_output` of src/app.py: for a truthy `n` (Python `if n:`
fails for `n = 0`), select the rows with a known value for the nutrient,
sort by that column (`ascending` iff the order control is `'asc'`), and take
the first `n` rows.  The sort is a determinization of
`sort_values(kind='quicksort')`: it orders by the key as the source does,
but the source leaves the relative order of tied rows implementation-
defined, so theorems about this ranking state only tie-order-insensitive
properties.  The source also projects to the three display columns
`item_name`, `restaurant`, nutrient, which loses no information used by any
claim; we keep the whole row together with its original index. -/
def update_top_n_output (t : List Row) (f : Nutrient) (n : ℕ)
    (order : SortOrder) : Option (List (ℕ × Row)) :=
  if n = 0 then none
  else some ((isort (leVal (fun p : ℕ × Row => nKey f p.2) order.isAsc)
    (knownRows t f)).take n)

/-! ### The item-info callback (`display_item_info`) -/

/-- The Python exception raised by `.iloc[0]` on an empty selection. -/
inductive DashError where
  | indexError
deriving DecidableEq, Repr

/-- What the explore page's item-info callback hands to the rendering
surface: nothing when no item is selected (the callback body is skipped and
Python returns `None`), otherwise the record of the first matching row (the
HTML and pie-chart built from that record are rendering, out of scope). -/
inductive ItemInfo where
  | noOutput
  | info (r : Row)
deriving DecidableEq, Repr

/-- `display_item_info` of src/app.py: a falsy selection (Python `None` or
the empty string) produces no output; otherwise the callback evaluates
`df[df['item_name'] == selected_item].iloc[0]`, which is the first matching
row when one exists and raises `IndexError` when no row matches. -/
def display_item_info (sel : Option String) (t : List Row) :
    Except DashError ItemInfo :=
  match sel with
  | none => .ok .noOutput
  | some s =>
    if s = "" then .ok .noOutput
    else
      match (t.filter (fun r => r.item_name = s)).head? with
      | some r => .ok (.info r)
      | none => .error .indexError

/-! ### The compare-foods callback (`update_compare_output`) -/

/-- `update_compare_output` of src/app.py: with both multi-selects truthy
(non-empty), filter to the rows whose `item_name` is among the selected
items, then `melt` on the selected metrics.  The melted long-form frame has
one `(item_name, Nutrient, Amount)` row per (metric, matching row) pair —
pandas `melt` stacks one block per `value_vars` entry in order and does NOT
drop NaN amounts.  The bar chart drawn from the frame is out of scope. -/
def update_compare_output (t : List Row) (items : List String)
    (metrics : List Nutrient) :
    Option (List (String × Nutrient × Option ℚ)) :=
  if items = [] ∨ metrics = [] then none
  else
    let compare_df := t.filter (fun r => r.item_name ∈ items)
    some (metrics.flatMap
      (fun m => compare_df.map (fun r => (r.item_name, m, getNutrient r m))))

/-! ### Grouped statistics (`update_statistical_summary_output`,
`update_restaurant_averages_output`, `update_category_comparison_output`) -/

/-- The known (non-NaN) values of a column slice, in row order. -/
def knownVals (xs : List (Option ℚ)) : List ℚ := xs.reduceOption

/-- pandas `Series.mean()` (skipna): NaN on an empty or all-NaN series,
otherwise the arithmetic mean of the known values. -/
def seriesMean (xs : List (Option ℚ)) : Option ℚ :=
  if (knownVals xs).length = 0 then none
  else some ((knownVals xs).sum / (knownVals xs).length)

/-- Comparator for sorting rationals. -/
def qle (a b : ℚ) : Bool := decide (a ≤ b)

/-- pandas `Series.median()` (skipna): NaN on an empty or all-NaN series;
the middle known value in sorted order for odd counts, the average of the
two middle values for even counts. -/
def seriesMedian (xs : List (Option ℚ)) : Option ℚ :=
  if (isort qle (knownVals xs)).length = 0 then none
  else some
    (if (isort qle (knownVals xs)).length % 2 = 1 then
      (isort qle (knownVals xs)).getD ((isort qle (knownVals xs)).length / 2) 0
    else ((isort qle (knownVals xs)).getD
        ((isort qle (knownVals xs)).length / 2 - 1) 0 +
      (isort qle (knownVals xs)).getD
        ((isort qle (knownVals xs)).length / 2) 0) / 2)

/-- pandas `Series.min()` (skipna). -/
def seriesMin (xs : List (Option ℚ)) : Option ℚ := (knownVals xs).min?

/-- pandas `Series.max()` (skipna). -/
def seriesMax (xs : List (Option ℚ)) : Option ℚ := (knownVals xs).max?

/-- Sample variance with the default `ddof = 1` over the known values: NaN
when fewer than two values are known (the `n - 1` denominator would be
zero), matching pandas `Series.std() ^ 2`. -/
def seriesVar (xs : List (Option ℚ)) : Option ℚ :=
  if (knownVals xs).length ≤ 1 then none
  else some (((knownVals xs).map
      (fun x => (x - (knownVals xs).sum / (knownVals xs).length) ^ 2)).sum /
    (((knownVals xs).length : ℚ) - 1))

/-- pandas `Series.std()` (skipna, `ddof = 1`): the square root of the
sample variance, NaN when fewer than two values are known. -/
noncomputable def seriesStd (xs : List (Option ℚ)) : Option ℝ :=
  (seriesVar xs).map (fun v => Real.sqrt (v : ℝ))

/-- `DataFrame.round(2)` on an exact rational cell.  The dashboard's floats
round half to even; on exact values no claim depends on the tie rule, so we
use the ambient `round`. -/
def round2 (q : ℚ) : ℚ := (round (100 * q) : ℤ) / 100

/-- `round(2)` on the real-valued standard-deviation column. -/
noncomputable def round2R (x : ℝ) : ℝ := (round (100 * x) : ℤ) / 100

/-- One output row of the statistical summary table: the five aggregates of
`agg(['mean', 'median', 'std', 'min', 'max'])`, NaN encoded as `none`. -/
structure StatRow where
  mean : Option ℚ
  median : Option ℚ
  std : Option ℝ
  min : Option ℚ
  max : Option ℚ

/-- Comparator for sorting group keys (pandas `groupby` sorts its keys). -/
def sle (a b : String) : Bool := decide (a ≤ b)

/-- The group keys of `df.groupby(g)`: the distinct values of the group
column, in sorted order. -/
def gKeys (t : List Row) (g : GroupField) : List String :=
  isort sle (dedupFirst (t.map (groupKey g)))

/-- The column slice of nutrient `f` over the rows of group `k`. -/
def groupSeries (t : List Row) (g : GroupField) (k : String)
    (f : Nutrient) : List (Option ℚ) :=
  (t.filter (fun r => groupKey g r = k)).map (fun r => getNutrient r f)

/-- `agg(['mean','median','std','min','max'])` on one group's series,
followed by the table-wide `round(2)`. -/
noncomputable def aggStats (xs : List (Option ℚ)) : StatRow :=
  { mean := (seriesMean xs).map round2
    median := (seriesMedian xs).map round2
    std := (seriesStd xs).map round2R
    min := (seriesMin xs).map round2
    max := (seriesMax xs).map round2 }

/-- `update_statistical_summary_output` of src/app.py (both dropdowns
selected): `df.groupby(group_by)[nutrient].agg(['mean', 'median', 'std',
'min', 'max']).reset_index().round(2)`, as an association list from group
key to its five aggregates. -/
noncomputable def update_statistical_summary_output (t : List Row)
    (f : Nutrient) (g : GroupField) : List (String × StatRow) :=
  (gKeys t g).map (fun k => (k, aggStats (groupSeries t g k f)))

/-- `update_restaurant_averages_output` of src/app.py: with both
multi-selects truthy (non-empty), filter to the selected restaurants and
take the per-restaurant mean of each selected nutrient (pandas `mean` skips
NaN).  The subsequent `melt` and bar chart reshape but do not change the
computed means. -/
def update_restaurant_averages_output (t : List Row) (rs : List String)
    (fs : List Nutrient) :
    Option (List (String × List (Nutrient × Option ℚ))) :=
  if rs = [] ∨ fs = [] then none
  else
    let filtered := t.filter (fun r => r.restaurant ∈ rs)
    some ((gKeys filtered .restaurant).map (fun k =>
      (k, fs.map (fun f => (f, seriesMean (groupSeries filtered .restaurant k f))))))

/-- `update_category_comparison_output` of src/app.py: with a nutrient
selected and a truthy (non-empty) category multi-select, filter to the
selected categories and take the per-category mean of the nutrient. -/
def update_category_comparison_output (t : List Row) (f : Nutrient)
    (cs : List String) : Option (List (String × Option ℚ)) :=
  if cs = [] then none
  else
    let filtered := t.filter (fun r => r.food_category ∈ cs)
    some ((gKeys filtered .food_category).map (fun k =>
      (k, seriesMean (groupSeries filtered .food_category k f))))

/-! ### Concrete rows for witnesses and counterexamples -/

/-- A baseline raw row for small concrete tables. -/
def rawBase : RawRow :=
  { item_name := "item", restaurant := "R", food_category := "C",
    item_description := none, serving_size := some 1,
    serving_size_unit := some "g",
    calories := .missing, total_fat := .missing, saturated_fat := .missing,
    trans_fat := .missing, cholesterol := .missing, sodium := .missing,
    carbohydrates := .missing, dietary_fiber := .missing, sugar := .missing,
    protein := .missing }

/-- A baseline loaded row for small concrete tables. -/
def rowBase : Row :=
  { item_name := "item", restaurant := "R", food_category := "C",
    item_description := none, serving_size := some 1,
    serving_size_unit := some "g",
    calories := none, total_fat := none, saturated_fat := none,
    trans_fat := none, cholesterol := none, sodium := none,
    carbohydrates := none, dietary_fiber := none, sugar := none,
    protein := none, carb_calories := none, fat_calories := none,
    protein_calories := none }

/-! ### Claim C7: derived calorie fields -/

theorem option_map_mul (o : Option ℚ) (c : ℚ) :
    (∀ q, o = some q → o.map (· * c) = some (q * c)) ∧
    (o = none → o.map (· * c) = none) := by
  cases o <;> simp

/-- C7: for every row of the loaded table, `carb_calories` is
`carbohydrates * 4`, `fat_calories` is `total_fat * 9` and
`protein_calories` is `protein * 4` whenever the source nutrient is known,
and each derived field is unknown (never zero) when its source nutrient is
unknown. -/
theorem derived_calories_correct (raw : List RawRow) (r : Row)
    (hr : r ∈ load_and_clean_data raw) :
    r.carb_calories = r.carbohydrates.map (· * 4) ∧
    r.fat_calories = r.total_fat.map (· * 9) ∧
    r.protein_calories = r.protein.map (· * 4) ∧
    (∀ q, r.carbohydrates = some q → r.carb_calories = some (q * 4)) ∧
    (∀ q, r.total_fat = some q → r.fat_calories = some (q * 9)) ∧
    (∀ q, r.protein = some q → r.protein_calories = some (q * 4)) ∧
    (r.carbohydrates = none → r.carb_calories = none) ∧
    (r.total_fat = none → r.fat_calories = none) ∧
    (r.protein = none → r.protein_calories = none) := by
  rcases List.mem_map.1 hr with ⟨rr, _, rfl⟩
  have h1 : (toRow rr).carb_calories = (toRow rr).carbohydrates.map (· * 4) := rfl
  have h2 : (toRow rr).fat_calories = (toRow rr).total_fat.map (· * 9) := rfl
  have h3 : (toRow rr).protein_calories = (toRow rr).protein.map (· * 4) := rfl
  exact ⟨h1, h2, h3,
    fun q hq => h1.trans ((option_map_mul _ 4).1 q hq),
    fun q hq => h2.trans ((option_map_mul _ 9).1 q hq),
    fun q hq => h3.trans ((option_map_mul _ 4).1 q hq),
    fun hq => h1.trans ((option_map_mul _ 4).2 hq),
    fun hq => h2.trans ((option_map_mul _ 9).2 hq),
    fun hq => h3.trans ((option_map_mul _ 4).2 hq)⟩

/-- A raw row with known carbohydrates, fat and protein. -/
def rawC7 : RawRow :=
  { rawBase with
    carbohydrates := .num 2
    total_fat := .num 1
    protein := .num 3 }

theorem derived_calories_witness :
    toRow (fillUnit rawC7) ∈ load_and_clean_data [rawC7] ∧
    (toRow (fillUnit rawC7)).carb_calories = some (2 * 4) ∧
    (toRow (fillUnit rawC7)).fat_calories = some (1 * 9) ∧
    (toRow (fillUnit rawC7)).protein_calories = some (3 * 4) := by
  have hmem : toRow (fillUnit rawC7) ∈ load_and_clean_data [rawC7] :=
    List.mem_singleton.2 rfl
  have h := derived_calories_correct [rawC7] _ hmem
  exact ⟨hmem, h.2.2.2.1 2 rfl, h.2.2.2.2.1 1 rfl, h.2.2.2.2.2.1 3 rfl⟩

/-! ### Claim C9: serving size invariants -/

/-- C9: every loaded row has a non-null `serving_size` (rows missing it were
excluded) and a non-null `serving_size_unit`; a raw row with an absent unit
gets the literal string "Unit". -/
theorem serving_size_invariants (raw : List RawRow) :
    (∀ r ∈ load_and_clean_data raw,
      r.serving_size.isSome ∧ r.serving_size_unit.isSome) ∧
    ∀ rr : RawRow, rr.serving_size_unit = none →
      (fillUnit rr).serving_size_unit = some "Unit" := by
  constructor
  · intro r hr
    rcases List.mem_map.1 hr with ⟨rr, hrr, rfl⟩
    rcases List.mem_map.1 (mem_of_mem_dedupFirst _ rr hrr) with ⟨rr0, hrr0, rfl⟩
    have hss : rr0.serving_size.isSome := by
      simpa using (List.mem_filter.1 hrr0).2
    exact ⟨hss, by simp [toRow, fillUnit]⟩
  · intro rr h
    simp [fillUnit, h]

theorem serving_size_invariants_witness :
    ((toRow (fillUnit rawBase)).serving_size.isSome ∧
      (toRow (fillUnit rawBase)).serving_size_unit.isSome) ∧
    (fillUnit { rawBase with serving_size_unit := none }).serving_size_unit =
      some "Unit" :=
  ⟨(serving_size_invariants [rawBase]).1 _ (List.mem_singleton.2 rfl),
   (serving_size_invariants [rawBase]).2 _ rfl⟩

/-! ### Claim C10: schema-level failure on a missing drop-list column -/

/-- C10: `load_and_clean_data` fails (raises, rather than returning a
table) whenever any column of its fixed 16-name drop list is absent from
the input file, regardless of the rest of the schema. -/
theorem drop_list_column_required (cols : List String) (c : String)
    (hc : c ∈ columns_to_drop) (habs : c ∉ cols) :
    ∃ e, load_schema cols = .error e := by
  unfold load_schema
  by_cases h1 : "serving_size" ∉ cols
  · rw [if_pos h1]
    exact ⟨_, rfl⟩
  · rw [if_neg h1]
    have h2 : ¬ columns_to_drop.all (fun x => decide (x ∈ cols)) = true := by
      simp only [List.all_eq_true]
      push_neg
      exact ⟨c, hc, by simpa using habs⟩
    rw [if_pos h2]
    exact ⟨_, rfl⟩

theorem drop_list_column_required_witness :
    "potassium" ∈ columns_to_drop ∧ "potassium" ∉ ["serving_size"] ∧
    ∃ e, load_schema ["serving_size"] = .error e :=
  ⟨by decide, by decide,
   drop_list_column_required ["serving_size"] "potassium" (by decide) (by decide)⟩

/-! ### Claim C6: duplicate rows in the loaded table -/

/-- A raw row whose `calories` cell is one unparseable text. -/
def rawDupA : RawRow := { rawBase with calories := .text 0 }

/-- A raw row identical to `rawDupA` in every retained column except that
its `calories` cell is a different unparseable text. -/
def rawDupB : RawRow := { rawBase with calories := .text 1 }

/-- C6 counterexample: `drop_duplicates` runs BEFORE `pd.to_numeric`, so two
rows that differ only in distinct unparseable nutrition strings both
survive deduplication, and numeric coercion then maps both strings to NaN,
leaving two identical rows in the loaded table. -/
theorem load_dedup_counterexample :
    ¬ (load_and_clean_data [rawDupA, rawDupB]).Nodup := by decide

/-- C6 amended: deduplication happens before numeric coercion: the
intermediate deduplicated table has pairwise-distinct rows across all
retained (raw) columns, and the loaded table is its image under numeric
coercion and derived-field computation — which can identify previously
distinct rows, so the final table may contain exact duplicates. -/
theorem load_dedup_before_coercion (raw : List RawRow) :
    (dedupedRaw raw).Nodup ∧
      load_and_clean_data raw = (dedupedRaw raw).map toRow :=
  ⟨nodup_dedupFirst _, rfl⟩

/-! ### Claim C1: item lookup -/

/-- A one-row table that does not contain the item name "nope". -/
def tableC1 : List Row := [{ rowBase with item_name := "Burger" }]

/-- C1 counterexample: looking up a (non-empty) item name that is not in
the table raises `IndexError` (from `.iloc[0]` on the empty filtered
frame), not an explicit not-found sentinel. -/
theorem item_lookup_counterexample :
    display_item_info (some "nope") tableC1 = .error .indexError := rfl

/-- C1 amended: for a present name the callback returns the first matching
row's full record, and an empty/absent selection yields a neutral
no-output result; but a non-empty name absent from the table raises
`IndexError` instead of returning a not-found sentinel. -/
theorem item_lookup_behaviour (t : List Row) (s : String) (hs : s ≠ "") :
    (∀ r, (t.filter (fun x => x.item_name = s)).head? = some r →
      display_item_info (some s) t = .ok (.info r)) ∧
    ((∀ r ∈ t, r.item_name ≠ s) →
      display_item_info (some s) t = .error .indexError) ∧
    display_item_info none t = .ok .noOutput := by
  refine ⟨fun r hr => ?_, fun habs => ?_, rfl⟩
  · rw [display_item_info, if_neg hs, hr]
  · rw [display_item_info, if_neg hs,
      List.filter_eq_nil_iff.2 (fun r hr => by simpa using habs r hr)]
    rfl

theorem item_lookup_witness :
    ("Burger" ≠ "") ∧
    display_item_info (some "Burger") tableC1 =
      .ok (.info { rowBase with item_name := "Burger" }) :=
  ⟨by decide,
   (item_lookup_behaviour tableC1 "Burger" (by decide)).1 _ (by decide)⟩

/-! ### Claim C3: the compare-items melt keeps null values -/

/-- A one-row table whose only row has unknown calories. -/
def tableC3 : List Row := [{ rowBase with item_name := "Salad" }]

theorem length_flatMap_map (ms : List γ) (X : List β) (f : γ → β → δ) :
    (ms.flatMap (fun m => X.map (f m))).length = ms.length * X.length := by
  induction ms with
  | nil => simp
  | cons m tail ih => simp [List.flatMap_cons, ih, Nat.succ_mul, Nat.add_comm]

/-- C3 counterexample: comparing the item "Salad", whose calories are
unknown, on the calories metric produces a long-form row carrying a null
value — `melt` does not drop NaN rows, so the result is not restricted to
present, non-null metric values. -/
theorem compare_items_counterexample :
    update_compare_output tableC3 ["Salad"] [Nutrient.calories] =
      some [("Salad", Nutrient.calories, (none : Option ℚ))] := by decide

/-- C3 amended: with both selections non-empty, the melted result has
exactly one (item, metric, value) row per (selected metric, matching table
row) pair, INCLUDING pairs whose value is unknown — null values are kept in
the long-form result (they are only skipped later, at rendering). -/
theorem compare_items_melt (t : List Row) (items : List String)
    (metrics : List Nutrient) (hi : items ≠ []) (hm : metrics ≠ []) :
    ∃ l, update_compare_output t items metrics = some l ∧
      l.length = metrics.length *
        (t.filter (fun r => r.item_name ∈ items)).length ∧
      (∀ e ∈ l, e.2.1 ∈ metrics ∧ ∃ r ∈ t, r.item_name ∈ items ∧
        e = (r.item_name, e.2.1, getNutrient r e.2.1)) ∧
      (∀ m ∈ metrics, ∀ r ∈ t, r.item_name ∈ items →
        (r.item_name, m, getNutrient r m) ∈ l) := by
  rw [update_compare_output, if_neg (by simp [hi, hm])]
  refine ⟨_, rfl, ?_, fun e he => ?_, fun m hm' r hr hritem => ?_⟩
  · exact length_flatMap_map metrics _ (fun m r => (r.item_name, m, getNutrient r m))
  · rcases List.mem_flatMap.1 he with ⟨m, hm', he'⟩
    rcases List.mem_map.1 he' with ⟨r, hr, rfl⟩
    have hr' := List.mem_filter.1 hr
    exact ⟨hm', r, hr'.1, by simpa using hr'.2, rfl⟩
  · refine List.mem_flatMap.2 ⟨m, hm', ?_⟩
    exact List.mem_map.2 ⟨r, List.mem_filter.2 ⟨hr, by simpa using hritem⟩, rfl⟩

theorem compare_items_melt_witness :
    (["Salad"] ≠ ([] : List String)) ∧
    ([Nutrient.calories] ≠ ([] : List Nutrient)) ∧
    ∃ l, update_compare_output tableC3 ["Salad"] [Nutrient.calories] =
        some l ∧
      l.length = 1 * (tableC3.filter (fun r => r.item_name ∈ ["Salad"])).length ∧
      (∀ e ∈ l, e.2.1 ∈ [Nutrient.calories] ∧ ∃ r ∈ tableC3,
        r.item_name ∈ ["Salad"] ∧ e = (r.item_name, e.2.1, getNutrient r e.2.1)) ∧
      (∀ m ∈ [Nutrient.calories], ∀ r ∈ tableC3, r.item_name ∈ ["Salad"] →
        (r.item_name, m, getNutrient r m) ∈ l) :=
  ⟨by decide, by decide,
   compare_items_melt tableC3 ["Salad"] [Nutrient.calories]
     (by decide) (by decide)⟩

/-! ### Claim C8: the Top N ranking with n at least the known-row count -/

theorem leVal_total (key : α → ℚ) (asc : Bool) (a b : α) :
    leVal key asc a b = true ∨ leVal key asc b a = true := by
  cases asc <;> simp [leVal] <;> exact le_total _ _

theorem leVal_trans (key : α → ℚ) (asc : Bool) (a b c : α)
    (h1 : leVal key asc a b = true) (h2 : leVal key asc b c = true) :
    leVal key asc a c = true := by
  cases asc <;> simp [leVal] at h1 h2 ⊢
  · exact le_trans h2 h1
  · exact le_trans h1 h2

/-- A three-row table for the Top N witness: two known calorie values
(3 and 1) and one unknown. -/
def tableTopN : List Row :=
  [{ rowBase with item_name := "a", calories := some 3 },
   { rowBase with item_name := "b" },
   { rowBase with item_name := "c", calories := some 1 }]

/-- C8: when `n` is at least the number of rows with a known value for the
field, the ascending and descending rankings return the same set of rows —
all rows with a known value — and the descending ranking is sorted by the
field descending with length at most `n`. -/
theorem top_n_asc_desc_full (t : List Row) (f : Nutrient) (n : ℕ)
    (hn : n ≠ 0) (hcnt : (knownRows t f).length ≤ n) :
    ∃ la ld, update_top_n_output t f n .asc = some la ∧
      update_top_n_output t f n .desc = some ld ∧
      (∀ p, p ∈ la ↔ p ∈ ld) ∧
      List.Perm la (knownRows t f) ∧ List.Perm ld (knownRows t f) ∧
      ld.Pairwise (fun p q => nKey f q.2 ≤ nKey f p.2) ∧
      ld.length ≤ n := by
  have hpa := isort_perm (leVal (fun p : ℕ × Row => nKey f p.2)
    SortOrder.asc.isAsc) (knownRows t f)
  have hpd := isort_perm (leVal (fun p : ℕ × Row => nKey f p.2)
    SortOrder.desc.isAsc) (knownRows t f)
  have hta : (isort (leVal (fun p : ℕ × Row => nKey f p.2) SortOrder.asc.isAsc)
      (knownRows t f)).take n = _ :=
    List.take_of_length_le (by rw [hpa.length_eq]; exact hcnt)
  have htd : (isort (leVal (fun p : ℕ × Row => nKey f p.2) SortOrder.desc.isAsc)
      (knownRows t f)).take n = _ :=
    List.take_of_length_le (by rw [hpd.length_eq]; exact hcnt)
  refine ⟨(isort (leVal (fun p : ℕ × Row => nKey f p.2) SortOrder.asc.isAsc)
      (knownRows t f)).take n,
    (isort (leVal (fun p : ℕ × Row => nKey f p.2) SortOrder.desc.isAsc)
      (knownRows t f)).take n, ?_, ?_, fun p => ?_, ?_, ?_, ?_, ?_⟩
  · rw [update_top_n_output, if_neg hn]
  · rw [update_top_n_output, if_neg hn]
  · rw [hta, htd, hpa.mem_iff, hpd.mem_iff]
  · rw [hta]
    exact hpa
  · rw [htd]
    exact hpd
  · rw [htd]
    refine (pairwise_isort _ (leVal_total _ _) (leVal_trans _ _) _).imp ?_
    intro a b hab
    simpa [leVal, SortOrder.isAsc] using hab
  · rw [htd, hpd.length_eq]
    exact hcnt

theorem top_n_asc_desc_full_witness :
    ((knownRows tableTopN Nutrient.calories).length ≤ 5) ∧ (5 ≠ 0) ∧
    ∃ la ld,
      update_top_n_output tableTopN Nutrient.calories 5 SortOrder.asc =
        some la ∧
      update_top_n_output tableTopN Nutrient.calories 5 SortOrder.desc =
        some ld ∧
      (∀ p, p ∈ la ↔ p ∈ ld) ∧
      List.Perm la (knownRows tableTopN Nutrient.calories) ∧
      List.Perm ld (knownRows tableTopN Nutrient.calories) ∧
      ld.Pairwise (fun p q =>
        nKey Nutrient.calories q.2 ≤ nKey Nutrient.calories p.2) ∧
      ld.length ≤ 5 :=
  ⟨by decide, by decide,
   top_n_asc_desc_full tableTopN Nutrient.calories 5 (by decide) (by decide)⟩

/-! ### Claims C5 and C4: grouped means and statistical summaries -/

theorem lookup_map_self [DecidableEq κ] (keys : List κ) (h : κ → β) (k : κ)
    (hk : k ∈ keys) :
    (keys.map (fun x => (x, h x))).lookup k = some (h k) := by
  induction keys with
  | nil => exact absurd hk (List.not_mem_nil k)
  | cons a as ih =>
    by_cases hka : k = a
    · subst hka
      simp [List.lookup]
    · have hk' : k ∈ as := (List.mem_cons.1 hk).resolve_left hka
      have hbeq : (k == a) = false := by simp [hka]
      simp only [List.map_cons, List.lookup, hbeq]
      exact ih hk'

/-- Specification-side mean (the spec's words): the mean over the known
values only; unknown — not zero — when no value is known. -/
def meanSpec (k : List ℚ) : Option ℚ :=
  if k = [] then none else some (k.sum / k.length)

theorem seriesMean_eq_meanSpec (xs : List (Option ℚ)) :
    seriesMean xs = meanSpec (knownVals xs) := by
  rw [seriesMean, meanSpec]
  by_cases h : knownVals xs = []
  · simp [h]
  · rw [if_neg (by simpa [List.length_eq_zero] using h), if_neg h]

/-- C5: both group-average callbacks (`restaurant averages` and `category
comparison`) compute each per-group mean over the known values only
(unknowns are ignored, never treated as zero), and a group with zero known
values for a nutrient reports that cell as unknown, not zero. -/
theorem group_average_ignores_unknowns (t : List Row) (rs : List String)
    (fs : List Nutrient) (f : Nutrient) (cs : List String)
    (hrs : rs ≠ []) (hfs : fs ≠ []) (hcs : cs ≠ []) :
    (∃ l, update_restaurant_averages_output t rs fs = some l ∧
      ∀ k ∈ gKeys (t.filter (fun r => r.restaurant ∈ rs)) .restaurant,
        ∃ cells, l.lookup k = some cells ∧
          ∀ f' ∈ fs,
            cells.lookup f' = some (meanSpec (knownVals (groupSeries
              (t.filter (fun r => r.restaurant ∈ rs)) .restaurant k f'))) ∧
            (knownVals (groupSeries (t.filter (fun r => r.restaurant ∈ rs))
                .restaurant k f') = [] →
              cells.lookup f' = some none)) ∧
    (∃ l, update_category_comparison_output t f cs = some l ∧
      ∀ k ∈ gKeys (t.filter (fun r => r.food_category ∈ cs)) .food_category,
        l.lookup k = some (meanSpec (knownVals (groupSeries
          (t.filter (fun r => r.food_category ∈ cs)) .food_category k f))) ∧
        (knownVals (groupSeries (t.filter (fun r => r.food_category ∈ cs))
            .food_category k f) = [] →
          l.lookup k = some none)) := by
  constructor
  · rw [update_restaurant_averages_output, if_neg (by simp [hrs, hfs])]
    refine ⟨_, rfl, fun k hk => ?_⟩
    refine ⟨_, lookup_map_self _ _ k hk, fun f' hf' => ⟨?_, fun h0 => ?_⟩⟩
    · rw [lookup_map_self _ _ f' hf', seriesMean_eq_meanSpec]
    · rw [lookup_map_self _ _ f' hf', seriesMean_eq_meanSpec, h0, meanSpec,
        if_pos rfl]
  · rw [update_category_comparison_output, if_neg hcs]
    refine ⟨_, rfl, fun k hk => ⟨?_, fun h0 => ?_⟩⟩
    · rw [lookup_map_self _ _ k hk, seriesMean_eq_meanSpec]
    · rw [lookup_map_self _ _ k hk, seriesMean_eq_meanSpec, h0, meanSpec,
        if_pos rfl]

/-- A two-row table for the grouped-mean witness: one known and one unknown
calorie value in the same restaurant and category. -/
def tableC5 : List Row :=
  [{ rowBase with
      restaurant := "KFC"
      food_category := "Soup"
      calories := some 2 },
   { rowBase with
      restaurant := "KFC"
      food_category := "Soup" }]

theorem group_average_witness :
    (["KFC"] ≠ ([] : List String)) ∧
    ([Nutrient.calories] ≠ ([] : List Nutrient)) ∧
    (["Soup"] ≠ ([] : List String)) ∧
    ((∃ l, update_restaurant_averages_output tableC5 ["KFC"]
          [Nutrient.calories] = some l ∧
        ∀ k ∈ gKeys (tableC5.filter (fun r => r.restaurant ∈ ["KFC"]))
            .restaurant,
          ∃ cells, l.lookup k = some cells ∧
            ∀ f' ∈ [Nutrient.calories],
              cells.lookup f' = some (meanSpec (knownVals (groupSeries
                (tableC5.filter (fun r => r.restaurant ∈ ["KFC"]))
                .restaurant k f'))) ∧
              (knownVals (groupSeries
                  (tableC5.filter (fun r => r.restaurant ∈ ["KFC"]))
                  .restaurant k f') = [] →
                cells.lookup f' = some none)) ∧
      (∃ l, update_category_comparison_output tableC5 Nutrient.calories
          ["Soup"] = some l ∧
        ∀ k ∈ gKeys (tableC5.filter (fun r => r.food_category ∈ ["Soup"]))
            .food_category,
          l.lookup k = some (meanSpec (knownVals (groupSeries
            (tableC5.filter (fun r => r.food_category ∈ ["Soup"]))
            .food_category k Nutrient.calories))) ∧
          (knownVals (groupSeries
              (tableC5.filter (fun r => r.food_category ∈ ["Soup"]))
              .food_category k Nutrient.calories) = [] →
            l.lookup k = some none))) :=
  ⟨by decide, by decide, by decide,
   group_average_ignores_unknowns tableC5 ["KFC"] [Nutrient.calories]
     Nutrient.calories ["Soup"] (by decide) (by decide) (by decide)⟩

/-- Specification-side summary statistics over the known values of one
group, following the spec's numeric semantics: population mean, median,
sample standard deviation with the n−1 denominator (unknown, not zero and
not an error, when n ≤ 1), minimum and maximum, each rounded to 2 decimal
places; all five are unknown when no value is known. -/
noncomputable def statsSpec (k : List ℚ) : StatRow :=
  { mean := if k = [] then none else some (round2 (k.sum / k.length))
    median := if k = [] then none
      else some (round2
        (if (isort qle k).length % 2 = 1 then
          (isort qle k).getD ((isort qle k).length / 2) 0
        else ((isort qle k).getD ((isort qle k).length / 2 - 1) 0 +
          (isort qle k).getD ((isort qle k).length / 2) 0) / 2))
    std := if k.length ≤ 1 then none
      else some (round2R (Real.sqrt
        (((k.map (fun x => (x - k.sum / k.length) ^ 2)).sum /
          ((k.length : ℚ) - 1) : ℚ))))
    min := k.min?.map round2
    max := k.max?.map round2 }

theorem aggStats_eq_statsSpec (xs : List (Option ℚ)) :
    aggStats xs = statsSpec (knownVals xs) := by
  have hsl : (isort qle (knownVals xs)).length = (knownVals xs).length :=
    (isort_perm qle (knownVals xs)).length_eq
  rw [aggStats, statsSpec, seriesMean, seriesMedian, seriesStd, seriesVar,
    seriesMin, seriesMax]
  by_cases h : knownVals xs = []
  · simp [h, isort]
  · have hl : ¬ (knownVals xs).length = 0 := by
      simpa [List.length_eq_zero] using h
    have hl2 : ¬ (isort qle (knownVals xs)).length = 0 := by
      rw [hsl]; exact hl
    simp only [StatRow.mk.injEq]
    refine ⟨?_, ?_, ?_, trivial, trivial⟩
    · rw [if_neg hl, if_neg h]
      rfl
    · rw [if_neg hl2, if_neg h]
      rfl
    · by_cases h1 : (knownVals xs).length ≤ 1
      · rw [if_pos h1, if_pos h1]
        rfl
      · rw [if_neg h1, if_neg h1]
        rfl

/-- C4: the statistical summary reports, for every group key, exactly the
specification statistics of that group's known values: mean, median,
sample standard deviation (n−1 denominator), min and max, each rounded to
2 decimal places and computed over known values only; the standard
deviation is unknown when at most one value is known, and a group with
zero known values reports all five statistics as unknown rather than
raising an error. -/
theorem statistical_summary_correct (t : List Row) (f : Nutrient)
    (g : GroupField) (k : String) (hk : k ∈ gKeys t g) :
    (update_statistical_summary_output t f g).lookup k =
      some (statsSpec (knownVals (groupSeries t g k f))) ∧
    (knownVals (groupSeries t g k f) = [] →
      statsSpec (knownVals (groupSeries t g k f)) =
        ⟨none, none, none, none, none⟩) ∧
    ((knownVals (groupSeries t g k f)).length ≤ 1 →
      (statsSpec (knownVals (groupSeries t g k f))).std = none) := by
  refine ⟨?_, fun h0 => ?_, fun h1 => ?_⟩
  · rw [update_statistical_summary_output, lookup_map_self _ _ k hk,
      aggStats_eq_statsSpec]
  · rw [h0, statsSpec]
    simp [isort]
  · rw [statsSpec]
    simp [h1]

/-- A three-row single-restaurant table with calories 1, 3, 5 for the
statistical-summary witness. -/
def tableC4 : List Row :=
  [{ rowBase with restaurant := "A", item_name := "x", calories := some 1 },
   { rowBase with restaurant := "A", item_name := "y", calories := some 3 },
   { rowBase with restaurant := "A", item_name := "z", calories := some 5 }]

theorem statistical_summary_witness :
    ("A" ∈ gKeys tableC4 GroupField.restaurant) ∧
    ((update_statistical_summary_output tableC4 Nutrient.calories
        GroupField.restaurant).lookup "A" =
      some (statsSpec (knownVals (groupSeries tableC4 GroupField.restaurant
        "A" Nutrient.calories))) ∧
    (knownVals (groupSeries tableC4 GroupField.restaurant "A"
        Nutrient.calories) = [] →
      statsSpec (knownVals (groupSeries tableC4 GroupField.restaurant "A"
        Nutrient.calories)) = ⟨none, none, none, none, none⟩) ∧
    ((knownVals (groupSeries tableC4 GroupField.restaurant "A"
        Nutrient.calories)).length ≤ 1 →
      (statsSpec (knownVals (groupSeries tableC4 GroupField.restaurant "A"
        Nutrient.calories))).std = none)) :=
  ⟨by decide, statistical_summary_correct tableC4 Nutrient.calories
    GroupField.restaurant "A" (by decide)⟩

end NutritionApp
